import Mathlib

/-!
Shallow embedding of the per-guild playback queue subsystem of the
discord-music-bot repository.

Sources embedded:
  - src/player/queue_manager.py : module-level dicts `queues` and `volumes`,
    `play_next`, `handle_playback_completion`, `cleanup_voice_client`;
  - src/player/ytdl_source.py : `SongInfo`, `YTDLSource.from_playlist`
    (the per-entry loop and the all-skipped failure path),
    `convert_music_youtube_url`;
  - src/commands/queue_commands.py : the `volume` command (get/set volume)
    and `queue` command (listing the queue);
  - src/commands/playback_commands.py : the query-resolution step of `play`
    (URL vs search phrase), the enqueue step, and `DEFAULT_VOLUME` from
    src/config.py.

Python dicts keyed by guild id are modelled as association lists
`List (Nat × α)`; Python floats used for volumes are modelled as `ℚ`
(every volume the program ever stores is an exact decimal: `DEFAULT_VOLUME`
or `percent / 100`). Effects of a command (messages sent, transport calls,
log lines) are recorded as an explicit trace of `Call`s so that theorems
can speak about which primitive operations a code path performs.
-/

/-- Association-list lookup, modelling `d[k]` / `k in d` on a Python dict. -/
def lookupA {α : Type} (m : List (Nat × α)) (k : Nat) : Option α :=
  match m with
  | [] => none
  | (k', v) :: rest => if k' = k then some v else lookupA rest k

/-- Association-list insert/update, modelling `d[k] = v` on a Python dict. -/
def insertA {α : Type} (m : List (Nat × α)) (k : Nat) (v : α) : List (Nat × α) :=
  match m with
  | [] => [(k, v)]
  | (k', v') :: rest => if k' = k then (k, v) :: rest else (k', v') :: insertA rest k v

/-- Embeds `config.DEFAULT_VOLUME = 0.05` (src/config.py line 12). -/
def DEFAULT_VOLUME : ℚ := 5 / 100

/-- Embeds `SongInfo` (src/player/ytdl_source.py): the metadata object the
`play` command appends to the queue (`create_source=False`, so the queue
holds `SongInfo` values, not audio sources). `title` is the value computed
in `SongInfo.__init__`. -/
structure SongInfo where
  url : String
  volume : ℚ
  stream : Bool
  title : String
deriving Repr, DecidableEq

/-- The state of `ctx.guild.voice_client` that the embedded code observes
and mutates: `is_connected()`, `is_playing()`, `is_paused()`, and the
`volume` attribute of the object currently installed as `voice_client.source`
(`none` when no source is installed). -/
structure VoiceClient where
  connected : Bool
  playing : Bool
  paused : Bool
  source : Option ℚ
deriving Repr, DecidableEq

/-- Trace elements: the primitive operations the embedded code paths can
perform, in the order performed. `createSource` stands for a call to
`SongInfo.create_source` (materialization); `transportPlay s` stands for
`voice_client.play(s, ...)` receiving the object `s` from the queue. -/
inductive Call where
  | popleft (s : SongInfo)
  | createSource (s : SongInfo)
  | transportPlay (s : SongInfo)
  | send (msg : String)
  | logWarning (msg : String)
  | logError (msg : String)
  | stopCall
  | disconnect
deriving Repr, DecidableEq

/-- Returns true on a `createSource` trace element. -/
def isCreateSource : Call → Bool
  | .createSource _ => true
  | _ => false

/-- Result of running one embedded step: the new `queues` dict, the new
voice-client state, the trace of primitive calls, and whether the step
raised an exception that propagates to its caller. -/
structure StepResult where
  queues : List (Nat × List SongInfo)
  vc : Option VoiceClient
  calls : List Call
  raised : Bool
deriving Repr, DecidableEq

/-- Embeds `play_next` (src/player/queue_manager.py lines 12-46), faithfully:
if the guild has a non-empty queue and a connected voice client, it pops the
head with `popleft` and passes that very object to `voice_client.play`
(there is no `create_source` call in this function); if the voice client is
absent or not connected it only logs a warning; if the queue is missing or
empty it sends the queue-empty message. `sendFails` models whether the
`await ctx.send(...)` call in the taken branch raises. -/
def play_next (gid : Nat) (vc : Option VoiceClient) (qs : List (Nat × List SongInfo))
    (sendFails : Bool) : StepResult :=
  match lookupA qs gid with
  | some (next :: rest) =>
    match vc with
    | some v =>
      if v.connected then
        let qs' := insertA qs gid rest
        let v' : VoiceClient := { v with playing := true, source := some next.volume }
        if sendFails then
          { queues := qs', vc := some v',
            calls := [.popleft next, .transportPlay next], raised := true }
        else
          { queues := qs', vc := some v',
            calls := [.popleft next, .transportPlay next,
                      .send ("Now playing: " ++ next.title)],
            raised := false }
      else
        { queues := qs, vc := vc,
          calls := [.logWarning "Voice client not connected"], raised := false }
    | none =>
      { queues := qs, vc := vc,
        calls := [.logWarning "Voice client not connected"], raised := false }
  | _ =>
    if sendFails then
      { queues := qs, vc := vc, calls := [], raised := true }
    else
      { queues := qs, vc := vc,
        calls := [.send "Queue is empty. Add more songs with !play or !add"],
        raised := false }

/-- Embeds `cleanup_voice_client` (src/player/queue_manager.py lines 83-107):
stop if playing, disconnect if connected; the whole body is wrapped in
`try/except` that swallows and logs any failure, modelled by `cleanupFails`. -/
def cleanup_voice_client (vc : Option VoiceClient) (cleanupFails : Bool) :
    Option VoiceClient × List Call :=
  if cleanupFails then
    (vc, [.logError "Error cleaning up voice client"])
  else
    match vc with
    | none => (none, [])
    | some v =>
      let p := if v.playing then
          (({ v with playing := false } : VoiceClient), ([Call.stopCall] : List Call))
        else (v, [])
      let q := if p.1.connected then
          (({ p.1 with connected := false } : VoiceClient), ([Call.disconnect] : List Call))
        else (p.1, [])
      (some q.1, p.2 ++ q.2)

/-- Embeds `handle_playback_completion` (src/player/queue_manager.py lines
49-80): log the error if one was carried by the completion callback, then
run `play_next` on the event loop; only if that `play_next` call raises is
`cleanup_voice_client` invoked (its own failures are swallowed).
The function itself never propagates an exception. -/
def handle_playback_completion (gid : Nat) (vc : Option VoiceClient)
    (qs : List (Nat × List SongInfo)) (error : Option String)
    (sendFails cleanupFails : Bool) : StepResult :=
  let errCalls : List Call :=
    match error with
    | some e => [.logError ("Player error: " ++ e)]
    | none => []
  let p := play_next gid vc qs sendFails
  if p.raised then
    let c := cleanup_voice_client p.vc cleanupFails
    { queues := p.queues, vc := c.1,
      calls := errCalls ++ p.calls ++ [.logError "Error playing next song"] ++ c.2,
      raised := false }
  else
    { queues := p.queues, vc := p.vc, calls := errCalls ++ p.calls, raised := false }

/-- Embeds Python `int(...)` applied to a rational: truncation toward zero
(`Int.tdiv` is T-division; `Rat` is stored normalized with positive
denominator). Used for `int(volumes[server_id] * 100)`. -/
def pyInt (q : ℚ) : Int := q.num.tdiv q.den

/-- The guild volume the `play` command reads after its initialization step
(`volumes[server_id]`, with `DEFAULT_VOLUME` inserted first when absent). -/
def guildVolume (gid : Nat) (vols : List (Nat × ℚ)) : ℚ :=
  (lookupA vols gid).getD DEFAULT_VOLUME

/-- Embeds the `volume` command (src/commands/queue_commands.py lines 60-101),
faithfully including statement order: (1) if the guild has no entry in
`volumes`, insert `DEFAULT_VOLUME`; (2) with no argument, send the current
volume as `int(volumes[server_id] * 100)`; (3) reject an argument outside
`0 <= p <= 100` with a message; (4) otherwise store `p / 100` and, if a
voice client with an installed source exists, set that source volume too.
Returns the new `volumes` dict, the new voice-client state and the trace. -/
def volumeCmd (gid : Nat) (percent : Option Int) (vols : List (Nat × ℚ))
    (vc : Option VoiceClient) : List (Nat × ℚ) × Option VoiceClient × List Call :=
  let vols1 := if (lookupA vols gid).isSome then vols else insertA vols gid DEFAULT_VOLUME
  match percent with
  | none =>
    let v := (lookupA vols1 gid).getD DEFAULT_VOLUME
    (vols1, vc, [.send ("Current volume: " ++ toString (pyInt (v * 100)) ++ "%")])
  | some p =>
    if p < 0 ∨ 100 < p then
      (vols1, vc, [.send "Volume must be between 0 and 100"])
    else
      let nv : ℚ := (p : ℚ) / 100
      let vols2 := insertA vols1 gid nv
      let vc' : Option VoiceClient :=
        match vc with
        | some v => if v.source.isSome then some { v with source := some nv } else some v
        | none => none
      (vols2, vc', [.send ("Volume set to " ++ toString p ++ "%")])

/-- Embeds the enqueue step of the `play` command
(src/commands/playback_commands.py lines 60-62 and 150-151): create the
guild queue when absent, then `queues[server_id].append(song_info)`. -/
def enqueueTrack (gid : Nat) (qs : List (Nat × List SongInfo)) (s : SongInfo) :
    List (Nat × List SongInfo) :=
  insertA qs gid ((lookupA qs gid).getD [] ++ [s])

/-- Embeds the queue read by the `queue` command
(src/commands/queue_commands.py lines 32-40): `list(queues[server_id])`,
the tracks in stored order (the command renders index and `song.title`
per element in exactly this order; a missing or empty queue renders the
queue-empty message). -/
def listQueue (gid : Nat) (qs : List (Nat × List SongInfo)) : List SongInfo :=
  (lookupA qs gid).getD []

/-- Embeds Python `s.startswith(pre)`: character-list prefix test. -/
def startsWithPy (s pre : String) : Bool :=
  pre.data.isPrefixOf s.data

/-- One result row of `search_youtube` (src/utils/youtube_api.py lines
68-81): id, title and the watch URL built from the id. -/
structure Video where
  id : String
  title : String
  url : String
deriving Repr, DecidableEq

/-- Embeds the query-resolution step of the `play` command
(src/commands/playback_commands.py lines 71-92). The input is treated as a
direct URL exactly when `query.startswith("https://")`. Otherwise
`search_youtube` is consulted (`searchResult`: `none` models the API
returning `None`, `some []` an empty result list); a non-empty result list
yields the first result URL, anything else falls back to the
`ytsearch:` form. Returns the resolved query string and whether the search
provider was consulted. -/
def resolveQuery (query : String) (searchResult : Option (List Video)) :
    String × Bool :=
  if startsWithPy query "https://" then
    (query, false)
  else
    match searchResult with
    | some (v :: _) => (v.url, true)
    | _ => ("ytsearch:" ++ query, true)

/-- Modelled from the spec: a well-formed absolute URL, per the words of the
spec section 4.1 ("If input is not a well-formed absolute URL, treat as a
search phrase"). For this domain an absolute URL is a string carrying an
http or https scheme followed by a non-empty remainder. This definition
follows the SPEC, to be compared with the code-side `resolveQuery` test. -/
def isWellFormedAbsoluteURL (s : String) : Bool :=
  (startsWithPy s "http://" && decide (7 < s.data.length)) ||
  (startsWithPy s "https://" && decide (8 < s.data.length))

/-- One enumerated playlist entry as seen by the loop of
`YTDLSource.from_playlist` (src/player/ytdl_source.py lines 352-387), after
the `if entry` filter: its optional title and id fields, the value of
`entry.get("url", entry.get("webpage_url", ""))` (empty string when both
are missing), and whether processing this entry raises (the body of the
per-entry `try`, e.g. source creation), with the attached message. -/
structure PEntry where
  title : Option String
  vid : Option String
  url : String
  createFails : Bool
  failMsg : String
deriving Repr, DecidableEq

/-- Embeds `entry.get("title", entry.get("id", "Unknown video"))`. -/
def entryTitle (e : PEntry) : String :=
  e.title.getD (e.vid.getD "Unknown video")

/-- An entry produces a skip-reason row instead of a track exactly when its
URL is missing or its processing raises. -/
def entryFails (e : PEntry) : Bool :=
  e.url = "" || e.createFails

/-- Embeds one iteration of the playlist loop: either a `SongInfo` built
from the entry (title from the partial `data`), or the skip message. -/
def processEntry (vol : ℚ) (e : PEntry) : Sum SongInfo String :=
  if e.url = "" then
    .inr ("Skipped " ++ entryTitle e ++ ": No URL found")
  else if e.createFails then
    .inr ("Skipped " ++ entryTitle e ++ ": " ++ e.failMsg)
  else
    .inl { url := e.url, volume := vol, stream := true,
           title := e.title.getD "Unknown title" }

/-- Embeds the whole playlist loop: `sources` and `skipped_entries`
accumulated in entry order. -/
def processEntries (vol : ℚ) : List PEntry → List SongInfo × List String
  | [] => ([], [])
  | e :: es =>
    let r := processEntries vol es
    match processEntry vol e with
    | .inl s => (s :: r.1, r.2)
    | .inr m => (r.1, m :: r.2)

/-- Embeds the tail of `YTDLSource.from_playlist` (src/player/ytdl_source.py
lines 345-406) for a URL whose extraction returned `entries`: run the
per-entry loop; if no entry yielded a track, raise (with the accumulated
skip reasons when there are any); otherwise return the tracks and the skip
reasons. -/
def from_playlist_entries (url : String) (vol : ℚ) (entries : List PEntry) :
    Except String (List SongInfo × List String) :=
  let r := processEntries vol entries
  if r.1.isEmpty then
    if r.2.isEmpty then
      .error ("Could not extract any valid entries from playlist " ++ url)
    else
      .error ("Could not extract any valid entries from playlist " ++ url ++
              ". Skipped entries:\n" ++ String.intercalate "\n" r.2)
  else
    .ok r

/-! Helper lemmas about the association-list model. -/

theorem lookupA_insertA_self {α : Type} (m : List (Nat × α)) (k : Nat) (v : α) :
    lookupA (insertA m k v) k = some v := by
  induction m with
  | nil => simp [insertA, lookupA]
  | cons hd tl ih =>
    obtain ⟨k', v'⟩ := hd
    by_cases h : k' = k
    · simp [insertA, lookupA, h]
    · simp [insertA, lookupA, h, ih]

theorem lookupA_insertA_ne {α : Type} (m : List (Nat × α)) (k g : Nat) (v : α)
    (h : g ≠ k) : lookupA (insertA m k v) g = lookupA m g := by
  induction m with
  | nil => simp [insertA, lookupA, Ne.symm h]
  | cons hd tl ih =>
    obtain ⟨k', v'⟩ := hd
    by_cases hk : k' = k
    · subst hk
      simp [insertA, lookupA, Ne.symm h]
    · simp [insertA, lookupA, hk, ih]

theorem listQueue_enqueueTrack (gid : Nat) (qs : List (Nat × List SongInfo))
    (s : SongInfo) : listQueue gid (enqueueTrack gid qs s) = listQueue gid qs ++ [s] := by
  simp [listQueue, enqueueTrack, lookupA_insertA_self]

/-- Claim C1 (code_bug evidence): on a guild whose queue holds a `SongInfo`
and whose transport is connected, `play_next` pops the head track and hands
that very un-materialized `SongInfo` object to `voice_client.play`; its
trace contains no `SongInfo.create_source` call at all, and there is no
materialization-failure fallback. This contradicts the documented design
(the `SongInfo` docstring: information is stored "until the song is ready
to be played, at which point a YTDLSource will be created from this
metadata") and the spec sentence the claim quotes. -/
theorem play_next_never_materializes :
    let s : SongInfo := ⟨"https://www.youtube.com/watch?v=a", DEFAULT_VOLUME, true, "Loading..."⟩
    let r := play_next 1 (some ⟨true, false, false, none⟩) [(1, [s])] false
    r.calls = [Call.popleft s, Call.transportPlay s, Call.send "Now playing: Loading..."] ∧
    r.queues = [(1, [])] ∧
    r.vc = some ⟨true, true, false, some DEFAULT_VOLUME⟩ ∧
    r.calls.all (fun c => !isCreateSource c) = true :=
  ⟨rfl, rfl, rfl, rfl⟩

/-- Claim C3 (code_bug evidence): the default guild volume is
`DEFAULT_VOLUME = 0.05` (5%), strictly below the documented 0.10-0.50
range (the code comments themselves say "default: 10%" in queue_manager.py
and "Default to 50%" at the initialization sites); a guild seen for the
first time captures 0.05 for new tracks and its first `volume` query
reports 5%. -/
theorem default_volume_below_documented_range :
    DEFAULT_VOLUME = 5 / 100 ∧
    ¬((1:ℚ)/10 ≤ DEFAULT_VOLUME ∧ DEFAULT_VOLUME ≤ (1:ℚ)/2) ∧
    guildVolume 1 [] = DEFAULT_VOLUME ∧
    (volumeCmd 1 none [] none).2.2 = [Call.send "Current volume: 5%"] := by
  refine ⟨rfl, by norm_num [DEFAULT_VOLUME], rfl, ?_⟩
  have h2 : DEFAULT_VOLUME * 100 = (5:ℚ) := by norm_num [DEFAULT_VOLUME]
  have h : pyInt (DEFAULT_VOLUME * 100) = 5 := by
    rw [h2]
    show (5:ℚ).num.tdiv (5:ℚ).den = 5
    norm_num
  have hv : (volumeCmd 1 none [] none).2.2
      = [Call.send ("Current volume: " ++ toString (pyInt (DEFAULT_VOLUME * 100)) ++ "%")] := rfl
  rw [hv, h]
  rfl

/-- Claim C5 counterexample: calling the volume command with the
out-of-range argument 150 on a guild never seen before is rejected, yet it
mutates state: the guild had no stored volume entry before the call and has
one (`DEFAULT_VOLUME`) after it, because the default-initialization step
runs before range validation. -/
theorem setVolume_reject_still_creates_entry :
    lookupA ([] : List (Nat × ℚ)) 1 = none ∧
    (volumeCmd 1 (some 150) [] none).2.2 = [Call.send "Volume must be between 0 and 100"] ∧
    (volumeCmd 1 (some 150) [] none).1 = [(1, DEFAULT_VOLUME)] ∧
    lookupA (volumeCmd 1 (some 150) [] none).1 1 = some DEFAULT_VOLUME :=
  ⟨rfl, rfl, rfl, rfl⟩

/-- Claim C2 counterexample: the completion callback fires carrying an
error on a guild with a connected transport and a non-empty queue; the
code logs the error and then advances to the next queued track exactly as
on natural completion — the transport is still connected afterwards, is
playing the next track, and the trace contains neither `stop()` nor
`disconnect()`, contradicting the claimed log-then-cleanup-to-Idle
behavior. -/
theorem completion_error_still_advances :
    let s : SongInfo := ⟨"https://www.youtube.com/watch?v=b", DEFAULT_VOLUME, true, "Next"⟩
    let r := handle_playback_completion 1 (some ⟨true, false, false, none⟩) [(1, [s])]
               (some "ffmpeg error") false false
    r.vc = some ⟨true, true, false, some DEFAULT_VOLUME⟩ ∧
    r.queues = [(1, [])] ∧
    r.calls = [Call.logError "Player error: ffmpeg error", Call.popleft s,
               Call.transportPlay s, Call.send "Now playing: Next"] ∧
    Call.disconnect ∉ r.calls ∧ Call.stopCall ∉ r.calls :=
  ⟨rfl, rfl, rfl, by decide, by decide⟩

/-- Claim C2 (amended): when the completion callback fires carrying an
error, the error is logged and then `play_next` is attempted exactly as on
natural completion (log line prepended, same queue/voice-client effect);
cleanup (stop residual playback, disconnect if still connected) is
performed only when that `play_next` attempt itself raises, and a failure
during cleanup itself is swallowed (the handler never raises) but logged. -/
theorem completion_error_logs_then_advances (gid : Nat) (vc : Option VoiceClient)
    (qs : List (Nat × List SongInfo)) (e : String) (sendFails cleanupFails : Bool) :
    Call.logError ("Player error: " ++ e)
      ∈ (handle_playback_completion gid vc qs (some e) sendFails cleanupFails).calls ∧
    (handle_playback_completion gid vc qs (some e) sendFails cleanupFails).raised = false ∧
    ((play_next gid vc qs sendFails).raised = false →
      handle_playback_completion gid vc qs (some e) sendFails cleanupFails =
        { play_next gid vc qs sendFails with
            calls := Call.logError ("Player error: " ++ e)
                       :: (play_next gid vc qs sendFails).calls }) ∧
    ((play_next gid vc qs sendFails).raised = true →
      (handle_playback_completion gid vc qs (some e) sendFails cleanupFails).vc =
        (cleanup_voice_client (play_next gid vc qs sendFails).vc cleanupFails).1 ∧
      (cleanupFails = true →
        Call.logError "Error cleaning up voice client"
          ∈ (handle_playback_completion gid vc qs (some e) sendFails cleanupFails).calls)) := by
  by_cases hr : (play_next gid vc qs sendFails).raised
  · refine ⟨?_, ?_, ?_, ?_⟩
    · simp [handle_playback_completion, hr]
    · simp [handle_playback_completion, hr]
    · intro h
      rw [h] at hr
      exact absurd hr (by simp)
    · intro _
      refine ⟨by simp [handle_playback_completion, hr], ?_⟩
      intro hc
      subst hc
      simp [handle_playback_completion, hr, cleanup_voice_client]
  · rw [Bool.not_eq_true] at hr
    refine ⟨?_, ?_, ?_, ?_⟩
    · simp [handle_playback_completion, hr]
    · simp [handle_playback_completion, hr]
    · intro _
      simp [handle_playback_completion, hr]
    · intro h
      rw [h] at hr
      cases hr

/-- Witness for `completion_error_logs_then_advances` at concrete inputs:
a guild with an empty queues dict whose queue-empty notification send
raises, with a cleanup failure injected; the callback logs the player
error, performs (failing, swallowed, logged) cleanup, and never raises. -/
theorem completion_error_logs_then_advances_witness :
    Call.logError ("Player error: boom")
      ∈ (handle_playback_completion 1 none [] (some "boom") true true).calls ∧
    (handle_playback_completion 1 none [] (some "boom") true true).vc =
      (cleanup_voice_client (play_next 1 none [] true).vc true).1 ∧
    Call.logError "Error cleaning up voice client"
      ∈ (handle_playback_completion 1 none [] (some "boom") true true).calls := by
  have h := completion_error_logs_then_advances 1 none [] "boom" true true
  have hr : (play_next 1 none [] true).raised = true := rfl
  exact ⟨h.1, (h.2.2.2 hr).1, (h.2.2.2 hr).2 rfl⟩

/-- Claim C5 (amended): a volume command with an integer percent outside
[0, 100] is rejected with the range message and mutates neither the voice
client (hence neither the live stream volume) nor the queues (the command
never touches the queues dict, which is reflected by its type) nor any
existing volume entry of any guild; the one state change the code does
perform is that a guild with no stored volume entry gets the default entry
`DEFAULT_VOLUME` created before validation runs. -/
theorem setVolume_out_of_range_rejected (gid : Nat) (p : Int)
    (vols : List (Nat × ℚ)) (vc : Option VoiceClient) (hp : p < 0 ∨ 100 < p) :
    (volumeCmd gid (some p) vols vc).2.1 = vc ∧
    (volumeCmd gid (some p) vols vc).2.2 = [Call.send "Volume must be between 0 and 100"] ∧
    (∀ g, g ≠ gid → lookupA (volumeCmd gid (some p) vols vc).1 g = lookupA vols g) ∧
    (∀ w, lookupA vols gid = some w →
      (volumeCmd gid (some p) vols vc).1 = vols) ∧
    (lookupA vols gid = none →
      (volumeCmd gid (some p) vols vc).1 = insertA vols gid DEFAULT_VOLUME) := by
  have key : volumeCmd gid (some p) vols vc =
      ((if (lookupA vols gid).isSome then vols else insertA vols gid DEFAULT_VOLUME), vc,
       [Call.send "Volume must be between 0 and 100"]) := by
    simp only [volumeCmd]
    rw [if_pos hp]
  rw [key]
  refine ⟨rfl, rfl, ?_, ?_, ?_⟩
  · intro g hg
    by_cases hs : (lookupA vols gid).isSome
    · rw [if_pos hs]
    · rw [if_neg hs]
      exact lookupA_insertA_ne vols gid g DEFAULT_VOLUME hg
  · intro w hw
    rw [if_pos (by rw [hw]; rfl)]
  · intro hn
    rw [if_neg (by rw [hn]; simp)]

/-- Witness for `setVolume_out_of_range_rejected`: guild 1 already has a
stored volume and a playing source; the rejected call with percent 150
leaves the voice client, the message, other guilds and the stored entry
as stated. -/
theorem setVolume_out_of_range_rejected_witness :
    (volumeCmd 1 (some 150) [(1, (3:ℚ)/10), (2, (1:ℚ)/2)]
        (some ⟨true, true, false, some ((3:ℚ)/10)⟩)).2.1
      = some ⟨true, true, false, some ((3:ℚ)/10)⟩ ∧
    (volumeCmd 1 (some 150) [(1, (3:ℚ)/10), (2, (1:ℚ)/2)]
        (some ⟨true, true, false, some ((3:ℚ)/10)⟩)).2.2
      = [Call.send "Volume must be between 0 and 100"] ∧
    (volumeCmd 1 (some 150) [(1, (3:ℚ)/10), (2, (1:ℚ)/2)]
        (some ⟨true, true, false, some ((3:ℚ)/10)⟩)).1
      = [(1, (3:ℚ)/10), (2, (1:ℚ)/2)] := by
  have h := setVolume_out_of_range_rejected 1 150 [(1, (3:ℚ)/10), (2, (1:ℚ)/2)]
    (some ⟨true, true, false, some ((3:ℚ)/10)⟩) (Or.inr (by norm_num))
  exact ⟨h.1, h.2.1, h.2.2.2.1 ((3:ℚ)/10) rfl⟩

/-! Helper lemmas for the playlist loop. -/

theorem length_filter_split {α : Type} (p : α → Bool) (l : List α) :
    (l.filter p).length + (l.filter fun a => !p a).length = l.length := by
  induction l with
  | nil => simp
  | cons a l ih =>
    by_cases h : p a = true
    · simp [List.filter_cons, h, ← ih]
      omega
    · rw [Bool.not_eq_true] at h
      simp [List.filter_cons, h, ← ih]
      omega

theorem processEntries_lengths (vol : ℚ) (entries : List PEntry) :
    (processEntries vol entries).1.length = (entries.filter fun e => !entryFails e).length ∧
    (processEntries vol entries).2.length = (entries.filter entryFails).length := by
  induction entries with
  | nil => simp [processEntries]
  | cons e es ih =>
    by_cases hu : e.url = ""
    · simp [processEntries, processEntry, entryFails, List.filter_cons, hu, ih]
    · by_cases hc : e.createFails = true
      · simp [processEntries, processEntry, entryFails, List.filter_cons, hu, hc, ih]
      · rw [Bool.not_eq_true] at hc
        simp [processEntries, processEntry, entryFails, List.filter_cons, hu, hc, ih]

/-- Claim C4: over `N` enumerated playlist entries of which `K` produce a
skip (missing URL or per-entry processing failure): when `K < N` the loop
returns `.ok` with exactly `N - K` tracks and exactly `K` skip-reason
entries; when `K = N` (and there is at least one entry) it raises a
resolution error; and a successful result never carries an empty track
list, so the caller never receives an empty non-error result. -/
theorem from_playlist_skip_accounting (url : String) (vol : ℚ)
    (entries : List PEntry) :
    ((entries.filter entryFails).length < entries.length →
       from_playlist_entries url vol entries = .ok (processEntries vol entries) ∧
       (processEntries vol entries).1.length
         = entries.length - (entries.filter entryFails).length ∧
       (processEntries vol entries).2.length = (entries.filter entryFails).length) ∧
    ((entries.filter entryFails).length = entries.length → entries ≠ [] →
       ∃ msg, from_playlist_entries url vol entries = .error msg) ∧
    (∀ s k, from_playlist_entries url vol entries = .ok (s, k) → s ≠ []) := by
  obtain ⟨hs, hk⟩ := processEntries_lengths vol entries
  have hsplit := length_filter_split entryFails entries
  refine ⟨?_, ?_, ?_⟩
  · intro hlt
    have hpos : 0 < (processEntries vol entries).1.length := by
      rw [hs]
      omega
    have hne : (processEntries vol entries).1.isEmpty = false := by
      cases h : (processEntries vol entries).1 with
      | nil => rw [h] at hpos; simp at hpos
      | cons a l => simp [h]
    refine ⟨?_, by omega, hk⟩
    simp [from_playlist_entries, hne]
  · intro heq _
    have hzero : (processEntries vol entries).1.length = 0 := by
      rw [hs]
      omega
    have hemp : (processEntries vol entries).1.isEmpty = true := by
      cases h : (processEntries vol entries).1 with
      | nil => simp [h]
      | cons a l => rw [h] at hzero; simp at hzero
    by_cases hsk : (processEntries vol entries).2.isEmpty
    · exact ⟨"Could not extract any valid entries from playlist " ++ url,
        by simp [from_playlist_entries, hemp, hsk]⟩
    · exact ⟨"Could not extract any valid entries from playlist " ++ url ++
          ". Skipped entries:\n" ++ String.intercalate "\n" (processEntries vol entries).2,
        by simp [from_playlist_entries, hemp, hsk]⟩
  · intro s k hok hnil
    by_cases hemp : (processEntries vol entries).1.isEmpty
    · by_cases hsk : (processEntries vol entries).2.isEmpty
      · simp [from_playlist_entries, hemp, hsk] at hok
      · simp [from_playlist_entries, hemp, hsk] at hok
    · have : (s, k) = processEntries vol entries := by
        simp [from_playlist_entries, hemp] at hok
        exact hok.symm
      rw [hnil] at this
      rw [← this] at hemp
      simp at hemp

/-- Witness for `from_playlist_skip_accounting`: a two-entry playlist whose
second entry has no URL; the loop yields one track and one skip reason and
does not raise. -/
theorem from_playlist_skip_accounting_witness :
    from_playlist_entries "https://www.youtube.com/playlist?list=x" DEFAULT_VOLUME
        [⟨some "Song A", some "a", "https://www.youtube.com/watch?v=a", false, ""⟩,
         ⟨none, some "b", "", false, ""⟩]
      = .ok (processEntries DEFAULT_VOLUME
          [⟨some "Song A", some "a", "https://www.youtube.com/watch?v=a", false, ""⟩,
           ⟨none, some "b", "", false, ""⟩]) ∧
    (processEntries DEFAULT_VOLUME
        [⟨some "Song A", some "a", "https://www.youtube.com/watch?v=a", false, ""⟩,
         ⟨none, some "b", "", false, ""⟩]).1
      = [⟨"https://www.youtube.com/watch?v=a", DEFAULT_VOLUME, true, "Song A"⟩] ∧
    (processEntries DEFAULT_VOLUME
        [⟨some "Song A", some "a", "https://www.youtube.com/watch?v=a", false, ""⟩,
         ⟨none, some "b", "", false, ""⟩]).2
      = ["Skipped b: No URL found"] := by
  have h := (from_playlist_skip_accounting "https://www.youtube.com/playlist?list=x"
    DEFAULT_VOLUME
    [⟨some "Song A", some "a", "https://www.youtube.com/watch?v=a", false, ""⟩,
     ⟨none, some "b", "", false, ""⟩]).1 (by decide)
  exact ⟨h.1, rfl, rfl⟩

/-- Claim C6 counterexample: the input
"http://www.youtube.com/watch?v=abc" is a well-formed absolute URL, yet the
code classifies it as a search phrase (the test is the literal prefix
"https://", not URL well-formedness): the search provider is consulted and,
with the authenticated search unavailable, the whole http URL is wrapped
into a ytsearch phrase instead of being resolved directly. -/
theorem absolute_http_url_treated_as_search :
    isWellFormedAbsoluteURL "http://www.youtube.com/watch?v=abc" = true ∧
    (resolveQuery "http://www.youtube.com/watch?v=abc" none).2 = true ∧
    (resolveQuery "http://www.youtube.com/watch?v=abc" none).1
      = "ytsearch:http://www.youtube.com/watch?v=abc" := by
  refine ⟨by decide, by decide, by decide⟩

/-- Claim C6 (amended): the input is treated as a search phrase if and only
if it does not start with the literal prefix "https://". For such inputs
the authenticated search is consulted first and the first result URL is
used; when the search is unavailable (`None`) or returns an empty list,
the code falls back to the anonymous "ytsearch:" form. Inputs starting
with "https://" are passed through unchanged and the search provider is
never consulted. -/
theorem resolveQuery_characterization (q : String) (sr : Option (List Video)) :
    ((resolveQuery q sr).2 = !(startsWithPy q "https://")) ∧
    (startsWithPy q "https://" = true → resolveQuery q sr = (q, false)) ∧
    (startsWithPy q "https://" = false →
      (∀ v vs, sr = some (v :: vs) → resolveQuery q sr = (v.url, true)) ∧
      (sr = none → resolveQuery q sr = ("ytsearch:" ++ q, true)) ∧
      (sr = some [] → resolveQuery q sr = ("ytsearch:" ++ q, true))) := by
  by_cases hp : startsWithPy q "https://" = true
  · refine ⟨by simp [resolveQuery, hp], fun _ => by simp [resolveQuery, hp], ?_⟩
    intro hf
    rw [hp] at hf
    cases hf
  · rw [Bool.not_eq_true] at hp
    refine ⟨?_, ?_, fun _ => ⟨?_, ?_, ?_⟩⟩
    · cases sr with
      | none => simp [resolveQuery, hp]
      | some l => cases l with
        | nil => simp [resolveQuery, hp]
        | cons v vs => simp [resolveQuery, hp]
    · intro h
      rw [h] at hp
      cases hp
    · intro v vs hsr
      rw [hsr]
      simp [resolveQuery, hp]
    · intro hsr
      rw [hsr]
      simp [resolveQuery, hp]
    · intro hsr
      rw [hsr]
      simp [resolveQuery, hp]

/-- Witness for `resolveQuery_characterization` at concrete inputs: a
search phrase with an available first result uses that result URL; the
same phrase with the search unavailable falls back to ytsearch; an
https URL is passed through with no search. -/
theorem resolveQuery_characterization_witness :
    resolveQuery "never gonna give you up"
        (some [⟨"abc", "Rick", "https://www.youtube.com/watch?v=abc"⟩])
      = ("https://www.youtube.com/watch?v=abc", true) ∧
    resolveQuery "never gonna give you up" none
      = ("ytsearch:never gonna give you up", true) ∧
    resolveQuery "https://www.youtube.com/watch?v=abc" none
      = ("https://www.youtube.com/watch?v=abc", false) := by
  refine ⟨?_, ?_, ?_⟩
  · exact ((resolveQuery_characterization "never gonna give you up"
      (some [⟨"abc", "Rick", "https://www.youtube.com/watch?v=abc"⟩])).2.2
      (by decide)).1 ⟨"abc", "Rick", "https://www.youtube.com/watch?v=abc"⟩ [] rfl
  · exact ((resolveQuery_characterization "never gonna give you up" none).2.2
      (by decide)).2.1 rfl
  · exact (resolveQuery_characterization "https://www.youtube.com/watch?v=abc" none).2.1
      (by decide)

theorem listQueue_foldl_enqueue (gid : Nat) (ts : List SongInfo) :
    ∀ qs, listQueue gid (ts.foldl (enqueueTrack gid) qs) = listQueue gid qs ++ ts := by
  induction ts with
  | nil => intro qs; simp
  | cons t ts ih =>
    intro qs
    rw [List.foldl_cons, ih (enqueueTrack gid qs t), listQueue_enqueueTrack]
    simp

/-- Claim C7: any sequence of enqueues on one guild with no intervening
playback leaves `listQueue` returning exactly the previous queue followed
by the enqueued tracks in insertion order; and the queue is FIFO: when the
stored queue is `t :: rest`, `play_next` pops exactly the head `t` (the
earliest insertion) and leaves `rest`, so insertion order equals play
order. -/
theorem enqueue_insertion_order (gid : Nat) (qs : List (Nat × List SongInfo))
    (ts : List SongInfo) :
    listQueue gid (ts.foldl (enqueueTrack gid) qs) = listQueue gid qs ++ ts ∧
    (∀ (t : SongInfo) (rest : List SongInfo) (v : VoiceClient) (sf : Bool),
      v.connected = true → lookupA qs gid = some (t :: rest) →
      (play_next gid (some v) qs sf).queues = insertA qs gid rest ∧
      Call.popleft t ∈ (play_next gid (some v) qs sf).calls) := by
  refine ⟨listQueue_foldl_enqueue gid ts qs, ?_⟩
  intro t rest v sf hc hq
  cases sf <;> simp [play_next, hq, hc]

/-- Witness for `enqueue_insertion_order`: two tracks enqueued into a fresh
guild appear in insertion order, and `play_next` on that queue with a
connected client pops the first-enqueued track. -/
theorem enqueue_insertion_order_witness :
    listQueue 1
        ([⟨"https://a", DEFAULT_VOLUME, true, "A"⟩,
          ⟨"https://b", DEFAULT_VOLUME, true, "B"⟩].foldl (enqueueTrack 1) [])
      = [⟨"https://a", DEFAULT_VOLUME, true, "A"⟩, ⟨"https://b", DEFAULT_VOLUME, true, "B"⟩] ∧
    (play_next 1 (some ⟨true, false, false, none⟩)
        [(1, [⟨"https://a", DEFAULT_VOLUME, true, "A"⟩,
              ⟨"https://b", DEFAULT_VOLUME, true, "B"⟩])] false).queues
      = insertA [(1, [⟨"https://a", DEFAULT_VOLUME, true, "A"⟩,
                      ⟨"https://b", DEFAULT_VOLUME, true, "B"⟩])] 1
          [⟨"https://b", DEFAULT_VOLUME, true, "B"⟩] ∧
    Call.popleft ⟨"https://a", DEFAULT_VOLUME, true, "A"⟩
      ∈ (play_next 1 (some ⟨true, false, false, none⟩)
          [(1, [⟨"https://a", DEFAULT_VOLUME, true, "A"⟩,
                ⟨"https://b", DEFAULT_VOLUME, true, "B"⟩])] false).calls := by
  have h1 := (enqueue_insertion_order 1 []
    [⟨"https://a", DEFAULT_VOLUME, true, "A"⟩, ⟨"https://b", DEFAULT_VOLUME, true, "B"⟩]).1
  have h2 := (enqueue_insertion_order 1
    [(1, [⟨"https://a", DEFAULT_VOLUME, true, "A"⟩,
          ⟨"https://b", DEFAULT_VOLUME, true, "B"⟩])] []).2
    ⟨"https://a", DEFAULT_VOLUME, true, "A"⟩ [⟨"https://b", DEFAULT_VOLUME, true, "B"⟩]
    ⟨true, false, false, none⟩ false rfl rfl
  exact ⟨by simpa using h1, h2.1, h2.2⟩

/-- Claim C8: a volume command setting 55 while a source is installed
(a track is playing) stores 0.55 as the guild volume, immediately sets the
live source volume to 0.55, acknowledges with the set message, makes the
volume `play` captures for future tracks 0.55, and makes a subsequent
no-argument volume query report 55%. -/
theorem setVolume_55_applies_live (gid : Nat) (vols : List (Nat × ℚ))
    (v : VoiceClient) (q : ℚ) (hsrc : v.source = some q) :
    lookupA (volumeCmd gid (some 55) vols (some v)).1 gid = some ((55:ℚ)/100) ∧
    (volumeCmd gid (some 55) vols (some v)).2.1
      = some { v with source := some ((55:ℚ)/100) } ∧
    (volumeCmd gid (some 55) vols (some v)).2.2 = [Call.send "Volume set to 55%"] ∧
    guildVolume gid (volumeCmd gid (some 55) vols (some v)).1 = (55:ℚ)/100 ∧
    (volumeCmd gid none (volumeCmd gid (some 55) vols (some v)).1
        (volumeCmd gid (some 55) vols (some v)).2.1).2.2
      = [Call.send "Current volume: 55%"] := by
  have hsome : v.source.isSome = true := by rw [hsrc]; rfl
  have hcast : (((55:ℤ)):ℚ) / 100 = (55:ℚ)/100 := by norm_num
  have hkey : volumeCmd gid (some 55) vols (some v) =
      (insertA (if (lookupA vols gid).isSome then vols
                else insertA vols gid DEFAULT_VOLUME) gid ((55:ℚ)/100),
       some { v with source := some ((55:ℚ)/100) },
       [Call.send "Volume set to 55%"]) := by
    simp only [volumeCmd]
    rw [if_neg (by decide)]
    simp only [hsome, if_true, hcast]
    rfl
  have hlook : lookupA (volumeCmd gid (some 55) vols (some v)).1 gid
      = some ((55:ℚ)/100) := by
    rw [hkey]
    exact lookupA_insertA_self _ gid _
  have hpy : pyInt ((55:ℚ)/100 * 100) = 55 := by
    have h : ((55:ℚ)/100 * 100) = 55 := by norm_num
    rw [h]
    show (55:ℚ).num.tdiv (55:ℚ).den = 55
    norm_num
  refine ⟨hlook, by rw [hkey], by rw [hkey], ?_, ?_⟩
  · rw [guildVolume, hlook]
    rfl
  · rw [hkey]
    have hlook2 : lookupA (insertA (if (lookupA vols gid).isSome then vols
        else insertA vols gid DEFAULT_VOLUME) gid ((55:ℚ)/100)) gid
        = some ((55:ℚ)/100) := lookupA_insertA_self _ gid _
    have hget : (volumeCmd gid none
        (insertA (if (lookupA vols gid).isSome then vols
          else insertA vols gid DEFAULT_VOLUME) gid ((55:ℚ)/100))
        (some { v with source := some ((55:ℚ)/100) })).2.2
      = [Call.send ("Current volume: " ++
          toString (pyInt (((lookupA (insertA (if (lookupA vols gid).isSome then vols
            else insertA vols gid DEFAULT_VOLUME) gid ((55:ℚ)/100)) gid).getD
            DEFAULT_VOLUME) * 100)) ++ "%")] := by
      simp only [volumeCmd]
      rw [if_pos (by rw [hlook2]; rfl)]
    rw [hget, hlook2]
    simp only [Option.getD_some, hpy]
    rfl

/-- Witness for `setVolume_55_applies_live`: a fresh volumes dict and a
connected client playing a source at the default volume; setting 55 stores
and applies 0.55 and the follow-up query reports 55%. -/
theorem setVolume_55_applies_live_witness :
    lookupA (volumeCmd 1 (some 55) []
        (some ⟨true, true, false, some DEFAULT_VOLUME⟩)).1 1 = some ((55:ℚ)/100) ∧
    (volumeCmd 1 (some 55) [] (some ⟨true, true, false, some DEFAULT_VOLUME⟩)).2.1
      = some ⟨true, true, false, some ((55:ℚ)/100)⟩ ∧
    (volumeCmd 1 none (volumeCmd 1 (some 55) []
          (some ⟨true, true, false, some DEFAULT_VOLUME⟩)).1
        (volumeCmd 1 (some 55) []
          (some ⟨true, true, false, some DEFAULT_VOLUME⟩)).2.1).2.2
      = [Call.send "Current volume: 55%"] := by
  have h := setVolume_55_applies_live 1 [] ⟨true, true, false, some DEFAULT_VOLUME⟩
    DEFAULT_VOLUME rfl
  exact ⟨h.1, h.2.1, h.2.2.2.2⟩

/-- Claim C10: if `play_next` runs for a guild whose stored queue is
non-empty while the voice client is absent or not connected, it only logs
a warning: the queues dict, the voice client and the queue entry are left
exactly as they were and no track is popped or handed to the transport.
Conversely (second conjunct, any inputs), whenever `play_next` changes the
queues dict at all, the client was present and connected, the popped track
was the stored head, and that same track was handed to the transport:
a track leaves the queue only at the moment it is handed to a connected
transport. -/
theorem play_next_disconnected_frame (gid : Nat) (t : SongInfo)
    (ts : List SongInfo) (vc : Option VoiceClient)
    (qs : List (Nat × List SongInfo)) (sf : Bool)
    (hq : lookupA qs gid = some (t :: ts))
    (hvc : ∀ v, vc = some v → v.connected = false) :
    (play_next gid vc qs sf =
      { queues := qs, vc := vc, calls := [Call.logWarning "Voice client not connected"],
        raised := false }) ∧
    (∀ (g : Nat) (w : Option VoiceClient) (m : List (Nat × List SongInfo)) (b : Bool),
      (play_next g w m b).queues ≠ m →
      ∃ u, w = some u ∧ u.connected = true ∧
        ∃ s rest, lookupA m g = some (s :: rest) ∧
          Call.transportPlay s ∈ (play_next g w m b).calls ∧
          (play_next g w m b).queues = insertA m g rest) := by
  constructor
  · cases vc with
    | none => simp [play_next, hq]
    | some v =>
      have hcv : v.connected = false := hvc v rfl
      simp [play_next, hq, hcv]
  · intro g w m b hne
    cases hm : lookupA m g with
    | none =>
      exfalso
      apply hne
      cases b <;> simp [play_next, hm]
    | some l =>
      cases l with
      | nil =>
        exfalso
        apply hne
        cases b <;> simp [play_next, hm]
      | cons s rest =>
        cases w with
        | none =>
          exfalso
          apply hne
          simp [play_next, hm]
        | some u =>
          by_cases hc : u.connected
          · refine ⟨u, rfl, hc, s, rest, rfl, ?_, ?_⟩
            · cases b <;> simp [play_next, hm, hc]
            · cases b <;> simp [play_next, hm, hc]
          · exfalso
            apply hne
            simp [play_next, hm, hc]

/-- Witness for `play_next_disconnected_frame`: a one-track queue with a
disconnected voice client is left untouched, and the general conjunct
applied to a connected client shows the pop happens with the hand-off. -/
theorem play_next_disconnected_frame_witness :
    play_next 1 (some ⟨false, false, false, none⟩)
        [(1, [⟨"https://www.youtube.com/watch?v=c", DEFAULT_VOLUME, true, "C"⟩])] false
      = { queues := [(1, [⟨"https://www.youtube.com/watch?v=c", DEFAULT_VOLUME, true, "C"⟩])],
          vc := some ⟨false, false, false, none⟩,
          calls := [Call.logWarning "Voice client not connected"], raised := false } := by
  exact (play_next_disconnected_frame 1
    ⟨"https://www.youtube.com/watch?v=c", DEFAULT_VOLUME, true, "C"⟩ []
    (some ⟨false, false, false, none⟩)
    [(1, [⟨"https://www.youtube.com/watch?v=c", DEFAULT_VOLUME, true, "C"⟩])] false
    rfl (fun v hv => by cases hv; rfl)).1
